import Mathlib

/-!
Verification of the room session lifecycle manager of
`src/server/service/tldraw/rooms.ts` (whiteboard-tldraw).

The module state is shallowly embedded:

* the `rooms` Map (board id → `RoomState`) becomes an association list
  `List (String × RoomState)`;
* the durable snapshot store (the `tldraw_room` table keyed by `roomId`)
  becomes an association list `List (String × Snapshot)`, with `Snapshot`
  abstracted to `Nat` (`0` stands for the empty board content);
* a `TLSocketRoom` instance is identified by a serial number `sid`
  (handed out from `ServerState.nextSid`) together with its `isClosed()`
  flag and its `getCurrentSnapshot()` value;
* fallible I/O (the database read, the upsert, the delete, and
  `new TLSocketRoom` construction) is driven by explicit boolean
  failure-injection parameters;
* the promise chain `mutex` serializes the queue slots of
  `makeOrLoadRoom`, so a sequence of concurrent calls is embedded as a
  left fold of slot bodies over the state (`runQueue`); the final
  `return rooms.get(roomId)!.room` of each call is a separate step
  (`resumeAfterSlot`) so that interleavings between a slot and its
  caller's resumption can be analysed.
-/

/-- Opaque serialized board content; `0` models the empty board. -/
abbrev Snapshot := Nat

/-- The `RoomState` interface of rooms.ts: the `TLSocketRoom` (identified
by `sid`, with its `isClosed()` flag `closed` and its current snapshot
`snap`), the stable `id`, and the `needsPersist` dirty flag. -/
structure RoomState where
  id : String
  sid : Nat
  closed : Bool
  needsPersist : Bool
  snap : Snapshot
deriving DecidableEq, Repr

/-- The module-level mutable state of rooms.ts: the `rooms` Map, the
durable snapshot table, and the next fresh session identity. -/
structure ServerState where
  rooms : List (String × RoomState)
  store : List (String × Snapshot)
  nextSid : Nat
deriving DecidableEq, Repr

/-- Association-list lookup (the Map `get` / SQL `findOne` semantics). -/
def alGet {β : Type} (k : String) : List (String × β) → Option β
  | [] => none
  | (k₁, v) :: rest => if k₁ = k then some v else alGet k rest

/-- Association-list update-or-insert (the Map `set` / upsert semantics). -/
def alSet {β : Type} (k : String) (v : β) : List (String × β) → List (String × β)
  | [] => [(k, v)]
  | (k₁, v₁) :: rest => if k₁ = k then (k, v) :: rest else (k₁, v₁) :: alSet k v rest

/-- Association-list removal (the Map `delete` / SQL `delete` semantics). -/
def alErase {β : Type} (k : String) : List (String × β) → List (String × β)
  | [] => []
  | (k₁, v₁) :: rest => if k₁ = k then rest else (k₁, v₁) :: alErase k rest

/-- `readSnapshotIfExists` (rooms.ts:47-61): `findOne` on the table; an
absent row yields `undefined`, and — crucially — a thrown database error
is caught, logged, and ALSO yields `undefined`.  `readFails` injects the
database error. -/
def readSnapshotIfExists (roomId : String) (store : List (String × Snapshot))
    (readFails : Bool) : Option Snapshot :=
  if readFails then none else alGet roomId store

/-- `saveSnapshot` (rooms.ts:68-91): upsert of the snapshot row; a thrown
database error is caught and logged, leaving the table unchanged.
`writeFails` injects the database error. -/
def saveSnapshot (roomId : String) (snapshot : Snapshot)
    (store : List (String × Snapshot)) (writeFails : Bool) :
    List (String × Snapshot) :=
  if writeFails then store else alSet roomId snapshot store

/-- One `makeOrLoadRoom` request together with its failure injections:
`readFails` makes the durable read throw inside `readSnapshotIfExists`,
`constructFails` makes the `new TLSocketRoom(...)` construction throw. -/
structure AcquireReq where
  roomId : String
  readFails : Bool
  constructFails : Bool
deriving DecidableEq, Repr

/-- What a `makeOrLoadRoom` call yields to its caller:
* `session sid closed` — the `TLSocketRoom` returned by
  `return rooms.get(roomId)!.room`;
* `loadError` — the error captured in the queue slot and re-thrown by
  `if (err) throw err`;
* `typeError` — the runtime failure of the non-null assertion
  `rooms.get(roomId)!` when the entry is absent. -/
inductive AcquireResult
  | session (sid : Nat) (closed : Bool)
  | loadError
  | typeError
deriving DecidableEq, Repr

/-- The body of one queue slot of `makeOrLoadRoom` (rooms.ts:122-177):
if a record exists and its room is not closed, return immediately with
no I/O; otherwise read the snapshot (one durable read), construct a new
`TLSocketRoom` seeded with it (`needsPersist` false), and publish the
record.  Result: (state after the slot, whether the slot's error was
captured by the `.catch`, number of durable reads performed). -/
def slotBody (q : AcquireReq) (s : ServerState) : ServerState × Bool × Nat :=
  let warm : Bool :=
    match alGet q.roomId s.rooms with
    | some rs => !rs.closed
    | none => false
  if warm then (s, false, 0)
  else
    let initialSnapshot := readSnapshotIfExists q.roomId s.store q.readFails
    if q.constructFails then (s, true, 1)
    else
      let rec₁ : RoomState :=
        { id := q.roomId, sid := s.nextSid, closed := false,
          needsPersist := false, snap := initialSnapshot.getD 0 }
      ({ rooms := alSet q.roomId rec₁ s.rooms, store := s.store,
         nextSid := s.nextSid + 1 }, false, 1)

/-- The caller's resumption after its queue slot settles
(rooms.ts:182-184): `const err = await mutex; if (err) throw err;
return rooms.get(roomId)!.room`, evaluated against the registry state at
resumption time. -/
def resumeAfterSlot (roomId : String) (errored : Bool) (s : ServerState) :
    AcquireResult :=
  if errored then .loadError
  else
    match alGet roomId s.rooms with
    | none => .typeError
    | some r => .session r.sid r.closed

/-- One full `makeOrLoadRoom` call with no interleaving between the queue
slot and the caller's resumption. Result: (new state, caller's result,
durable reads performed). -/
def makeOrLoadRoom (q : AcquireReq) (s : ServerState) :
    ServerState × AcquireResult × Nat :=
  let (s₁, errored, r) := slotBody q s
  (s₁, resumeAfterSlot q.roomId errored s₁, r)

/-- A sequence of `makeOrLoadRoom` calls processed in FIFO order by the
promise-chain mutex. Result: (final state, per-caller results, total
durable reads). -/
def runQueue : List AcquireReq → ServerState → ServerState × List AcquireResult × Nat
  | [], s => (s, [], 0)
  | q :: qs, s =>
    let (s₁, res, r₁) := makeOrLoadRoom q s
    let (s₂, ress, r₂) := runQueue qs s₁
    (s₂, res :: ress, r₁ + r₂)

/-- The external folder/board catalog, holding the ids present in the
`folder` and `board` tables. -/
structure Catalog where
  folders : List String
  boards : List String
deriving DecidableEq, Repr

/-- `FolderService.checkFolderExists` (FolderService source, lines
333-336): `count({ where: { folderId } }) > 0`. Note it counts FOLDER
rows whose id equals the argument — rooms.ts passes a board id here. -/
def checkFolderExists (folderId : String) (cat : Catalog) : Bool :=
  decide (0 < cat.folders.countP (fun f => decide (f = folderId)))

/-- `FolderService.checkBoardExists` (FolderService source, lines
343-346): `count({ where: { boardId } }) > 0`. rooms.ts never calls it. -/
def checkBoardExists (boardId : String) (cat : Catalog) : Bool :=
  decide (0 < cat.boards.countP (fun b => decide (b = boardId)))

/-- Outcome of one retention run (the async IIFE in `onSessionRemoved`):
the durable table and registry afterwards, and whether `room.close()`
was reached. -/
structure RetentionOutcome where
  store : List (String × Snapshot)
  rooms : List (String × RoomState)
  sessionClosed : Bool
deriving DecidableEq, Repr

/-- The async IIFE run when `numSessionsRemaining === 0`
(rooms.ts:151-164), with `rec₁` the closure-captured `roomState`:

* if `checkFolderExists(roomId)` is true, `await roomRepo.delete(roomId)`
  (a thrown delete — `deleteFails` — rejects the IIFE promise: the
  remaining statements, `room.close()` and `rooms.delete`, never run);
* else if `roomState.needsPersist`, `await saveSnapshot(roomId,
  room.getCurrentSnapshot())` (which swallows its own failures);
* then `room.close()` and `rooms.delete(roomState.id)`. -/
def retentionRun (cat : Catalog) (deleteFails writeFails : Bool)
    (roomId : String) (rec₁ : RoomState) (s : ServerState) : RetentionOutcome :=
  if checkFolderExists roomId cat then
    if deleteFails then
      ⟨s.store, s.rooms, false⟩
    else
      ⟨alErase roomId s.store, alErase rec₁.id s.rooms, true⟩
  else
    let store₁ :=
      if rec₁.needsPersist then saveSnapshot roomId rec₁.snap s.store writeFails
      else s.store
    ⟨store₁, alErase rec₁.id s.rooms, true⟩

/-- The full `onSessionRemoved` handler (rooms.ts:146-166): when
`numSessionsRemaining === 0` it fires the retention IIFE, otherwise it
only logs. -/
def onSessionRemoved (cat : Catalog) (deleteFails writeFails : Bool)
    (roomId : String) (rec₁ : RoomState) (numSessionsRemaining : Nat)
    (s : ServerState) : RetentionOutcome :=
  if numSessionsRemaining = 0 then retentionRun cat deleteFails writeFails roomId rec₁ s
  else ⟨s.store, s.rooms, false⟩

/-- One entry of the persistence sweeper's loop body (rooms.ts:192-202)
applied to the remaining entries: if `needsPersist`, clear the flag and
then fire `saveSnapshot` (whose failure is swallowed); if the room is
closed, drop the entry from the registry. -/
def sweepRooms (writeFails : String → Bool) :
    List (String × RoomState) → List (String × Snapshot) →
    List (String × RoomState) × List (String × Snapshot)
  | [], store => ([], store)
  | (k, r) :: rest, store =>
    let store₁ :=
      if r.needsPersist then saveSnapshot k r.snap store (writeFails k) else store
    let r₁ : RoomState := { r with needsPersist := false }
    if r.closed then sweepRooms writeFails rest store₁
    else
      let (rs, st) := sweepRooms writeFails rest store₁
      ((k, r₁) :: rs, st)

/-- One tick of the `setInterval` persistence sweeper (rooms.ts:191-203).
`writeFails k` injects a database failure into the upsert for room `k`. -/
def sweepTick (writeFails : String → Bool) (s : ServerState) : ServerState :=
  let (rs, st) := sweepRooms writeFails s.rooms s.store
  { rooms := rs, store := st, nextSid := s.nextSid }

/-! ### Basic association-list lemmas -/

theorem alGet_alSet_self {β : Type} (k : String) (v : β) (m : List (String × β)) :
    alGet k (alSet k v m) = some v := by
  induction m with
  | nil => simp [alGet, alSet]
  | cons p rest ih =>
    obtain ⟨k₁, v₁⟩ := p
    by_cases h : k₁ = k
    · simp [alGet, alSet, h]
    · simp [alGet, alSet, h, ih]

theorem alGet_some_mem {β : Type} {k : String} {v : β} {m : List (String × β)} :
    alGet k m = some v → (k, v) ∈ m := by
  induction m with
  | nil => intro h; simp [alGet] at h
  | cons p rest ih =>
    obtain ⟨k₁, v₁⟩ := p
    intro h
    by_cases hk : k₁ = k
    · subst hk
      simp [alGet] at h
      simp [h]
    · simp [alGet, hk] at h
      exact List.mem_cons_of_mem _ (ih h)

/-! ### Unfolding lemmas for the queue-slot model -/

theorem slotBody_warm {q : AcquireReq} {s : ServerState} {r : RoomState}
    (h : alGet q.roomId s.rooms = some r) (hc : r.closed = false) :
    slotBody q s = (s, false, 0) := by
  simp [slotBody, h, hc]

theorem slotBody_cold {q : AcquireReq} {s : ServerState}
    (h : ∀ r, alGet q.roomId s.rooms = some r → r.closed = true)
    (hcf : q.constructFails = false) :
    slotBody q s =
      ({ rooms := alSet q.roomId
          { id := q.roomId, sid := s.nextSid, closed := false, needsPersist := false,
            snap := (readSnapshotIfExists q.roomId s.store q.readFails).getD 0 } s.rooms,
         store := s.store, nextSid := s.nextSid + 1 }, false, 1) := by
  have hwarm : (match alGet q.roomId s.rooms with
      | some rs => !rs.closed
      | none => false) = false := by
    cases hg : alGet q.roomId s.rooms with
    | none => rfl
    | some r => simp [h r hg]
  simp [slotBody, hwarm, hcf]

theorem slotBody_fails {q : AcquireReq} {s : ServerState}
    (h : ∀ r, alGet q.roomId s.rooms = some r → r.closed = true)
    (hcf : q.constructFails = true) :
    slotBody q s = (s, true, 1) := by
  have hwarm : (match alGet q.roomId s.rooms with
      | some rs => !rs.closed
      | none => false) = false := by
    cases hg : alGet q.roomId s.rooms with
    | none => rfl
    | some r => simp [h r hg]
  simp [slotBody, hwarm, hcf]

theorem resumeAfterSlot_some {roomId : String} {s : ServerState} {r : RoomState}
    (h : alGet roomId s.rooms = some r) :
    resumeAfterSlot roomId false s = .session r.sid r.closed := by
  simp [resumeAfterSlot, h]

/-- Warm steady state: while a non-closed record is published for
`roomId`, every queued `makeOrLoadRoom` call returns that same session
with no state change and no durable read. -/
theorem runQueue_warm {roomId : String} {s : ServerState} {r : RoomState}
    (m : Nat) (h : alGet roomId s.rooms = some r) (hc : r.closed = false) :
    runQueue (List.replicate m ⟨roomId, false, false⟩) s =
      (s, List.replicate m (.session r.sid false), 0) := by
  induction m with
  | zero => simp [runQueue]
  | succ m ih =>
    have hslot : slotBody ⟨roomId, false, false⟩ s = (s, false, 0) := slotBody_warm h hc
    have hres : resumeAfterSlot roomId false s = .session r.sid r.closed :=
      resumeAfterSlot_some h
    simp [List.replicate_succ, runQueue, makeOrLoadRoom, hslot, hres, hc, ih]

/-! ### Claim theorems -/

/-- C1: for every sequence of concurrent `makeOrLoadRoom` calls with the
same `boardId` and no intervening close, starting with no live record
(absent or closed), every caller receives the same fresh non-closed
session (identity `s.nextSid`), exactly one load sequence runs, and the
durable store is read exactly once in total: the first dequeued caller
loads, all later ones find the published non-closed record and return it
without I/O. -/
theorem C1_single_writer (roomId : String) (s : ServerState) (n : Nat)
    (hcold : ∀ r, alGet roomId s.rooms = some r → r.closed = true)
    (hn : 0 < n) :
    (runQueue (List.replicate n ⟨roomId, false, false⟩) s).2.1 =
      List.replicate n (AcquireResult.session s.nextSid false) ∧
    (runQueue (List.replicate n ⟨roomId, false, false⟩) s).2.2 = 1 := by
  obtain ⟨m, rfl⟩ : ∃ m, n = m + 1 := ⟨n - 1, (Nat.succ_pred_eq_of_pos hn).symm⟩
  have hslot := slotBody_cold (q := ⟨roomId, false, false⟩) (s := s) hcold rfl
  set rec₁ : RoomState :=
    { id := roomId, sid := s.nextSid, closed := false, needsPersist := false,
      snap := (readSnapshotIfExists roomId s.store false).getD 0 } with hrec
  set s₁ : ServerState :=
    { rooms := alSet roomId rec₁ s.rooms, store := s.store,
      nextSid := s.nextSid + 1 } with hs₁
  have hget : alGet roomId s₁.rooms = some rec₁ := alGet_alSet_self roomId rec₁ s.rooms
  have hres : resumeAfterSlot roomId false s₁ = .session s.nextSid false :=
    resumeAfterSlot_some hget
  have hwarm := @runQueue_warm roomId s₁ rec₁ m hget rfl
  constructor
  · simp [List.replicate_succ, runQueue, makeOrLoadRoom, hslot, hres, hwarm]
  · simp [List.replicate_succ, runQueue, makeOrLoadRoom, hslot, hwarm]

/-- C1 witness: two concurrent calls for board "b" on a cold state with a
stored snapshot both receive session 0 and trigger exactly one read. -/
theorem C1_single_writer_witness :
    (runQueue (List.replicate 2 ⟨"b", false, false⟩) ⟨[], [("b", 5)], 0⟩).2.1 =
      List.replicate 2 (AcquireResult.session 0 false) ∧
    (runQueue (List.replicate 2 ⟨"b", false, false⟩) ⟨[], [("b", 5)], 0⟩).2.2 = 1 :=
  C1_single_writer "b" ⟨[], [("b", 5)], 0⟩ 2
    (fun r h => by simp [alGet] at h) (by decide)

/-- C2: when a `makeOrLoadRoom` queue slot's load-or-construct step
raises (here: `new TLSocketRoom` construction fails on a cold slot), the
error is re-raised to exactly that caller as `loadError`, the slot leaves
the whole state — in particular the registry — unchanged (no record is
published), and every subsequently enqueued call, for any boardIds,
produces exactly the results it would produce had the failing call never
been enqueued. -/
theorem C2_error_isolated (roomId : String) (s : ServerState)
    (rest : List AcquireReq)
    (hcold : ∀ r, alGet roomId s.rooms = some r → r.closed = true) :
    runQueue (⟨roomId, false, true⟩ :: rest) s =
      ((runQueue rest s).1, .loadError :: (runQueue rest s).2.1,
        1 + (runQueue rest s).2.2) := by
  have hslot := slotBody_fails (q := ⟨roomId, false, true⟩) (s := s) hcold rfl
  simp [runQueue, makeOrLoadRoom, hslot, resumeAfterSlot]

/-- C2 witness: a failing call for cold board "b" yields `loadError` for
its caller and leaves the follow-up call for "c" to run exactly as if it
had been first. -/
theorem C2_error_isolated_witness :
    runQueue (⟨"b", false, true⟩ :: [⟨"c", false, false⟩]) ⟨[], [("b", 5)], 0⟩ =
      ((runQueue [⟨"c", false, false⟩] ⟨[], [("b", 5)], 0⟩).1,
        .loadError :: (runQueue [⟨"c", false, false⟩] ⟨[], [("b", 5)], 0⟩).2.1,
        1 + (runQueue [⟨"c", false, false⟩] ⟨[], [("b", 5)], 0⟩).2.2) :=
  C2_error_isolated "b" ⟨[], [("b", 5)], 0⟩ [⟨"c", false, false⟩]
    (fun r h => by simp [alGet] at h)

/-- C3 counterexample: the claim says a failed durable read must surface
a `LoadError` to the requester.  On the code, `readSnapshotIfExists`
catches the thrown database error and returns `undefined`, so a
`makeOrLoadRoom` call for board "b" — whose store row holds snapshot 5 —
with a failing read SUCCEEDS, returning a fresh session instead of
raising `LoadError`. -/
theorem C3_counterexample :
    (makeOrLoadRoom ⟨"b", true, false⟩ ⟨[], [("b", 5)], 0⟩).2.1 =
      AcquireResult.session 0 false ∧
    (makeOrLoadRoom ⟨"b", true, false⟩ ⟨[], [("b", 5)], 0⟩).2.1 ≠
      AcquireResult.loadError := by
  constructor
  · rfl
  · intro h
    simp [makeOrLoadRoom, slotBody, alGet, readSnapshotIfExists, alSet,
      resumeAfterSlot] at h

/-- C3 amended: when the durable snapshot read raises during a cold
`makeOrLoadRoom` call, the error is caught inside `readSnapshotIfExists`
and treated as "no stored snapshot": the call succeeds, publishing and
returning a fresh non-closed session whose initial snapshot is the empty
board (0), ignoring any snapshot actually stored for that board. -/
theorem C3_read_error_swallowed (roomId : String) (s : ServerState)
    (hcold : ∀ r, alGet roomId s.rooms = some r → r.closed = true) :
    makeOrLoadRoom ⟨roomId, true, false⟩ s =
      ({ rooms := alSet roomId
          { id := roomId, sid := s.nextSid, closed := false,
            needsPersist := false, snap := 0 } s.rooms,
         store := s.store, nextSid := s.nextSid + 1 },
        AcquireResult.session s.nextSid false, 1) := by
  have hslot := slotBody_cold (q := ⟨roomId, true, false⟩) (s := s) hcold rfl
  have hget := alGet_alSet_self roomId
    { id := roomId, sid := s.nextSid, closed := false, needsPersist := false,
      snap := (readSnapshotIfExists roomId s.store true).getD 0 } s.rooms
  have hres := resumeAfterSlot_some (s :=
    { rooms := alSet roomId
        { id := roomId, sid := s.nextSid, closed := false, needsPersist := false,
          snap := (readSnapshotIfExists roomId s.store true).getD 0 } s.rooms,
      store := s.store, nextSid := s.nextSid + 1 }) hget
  simp [readSnapshotIfExists] at hslot hres
  simp [makeOrLoadRoom, hslot, hres]

/-- C3 amended witness: board "b" has stored snapshot 5, yet with a
failing read the call succeeds with a fresh empty session. -/
theorem C3_read_error_swallowed_witness :
    makeOrLoadRoom ⟨"b", true, false⟩ ⟨[], [("b", 5)], 0⟩ =
      ({ rooms := alSet "b"
          { id := "b", sid := 0, closed := false, needsPersist := false,
            snap := 0 } [],
         store := [("b", 5)], nextSid := 1 },
        AcquireResult.session 0 false, 1) :=
  C3_read_error_swallowed "b" ⟨[], [("b", 5)], 0⟩ (fun r h => by simp [alGet] at h)

/-- When every upsert of a tick fails, the sweeper leaves the durable
table untouched (`saveSnapshot` swallows the failures). -/
theorem sweepRooms_store_unchanged (wf : String → Bool)
    (l : List (String × RoomState)) (st : List (String × Snapshot))
    (hw : ∀ k, wf k = true) :
    (sweepRooms wf l st).2 = st := by
  induction l generalizing st with
  | nil => simp [sweepRooms]
  | cons p rest ih =>
    obtain ⟨k, r⟩ := p
    simp [sweepRooms, hw k, saveSnapshot]
    by_cases hc : r.closed <;> simp [hc, ih]

/-- The fate of one non-closed record across a sweeper tick: it stays in
the registry with its dirty flag cleared — regardless of whether its
upsert succeeded. -/
theorem sweepRooms_record_cleared (wf : String → Bool) (roomId : String)
    (rec₁ : RoomState) (l : List (String × RoomState))
    (st : List (String × Snapshot))
    (hr : alGet roomId l = some rec₁) (hc : rec₁.closed = false) :
    alGet roomId (sweepRooms wf l st).1 = some { rec₁ with needsPersist := false } := by
  induction l generalizing st with
  | nil => simp [alGet] at hr
  | cons p rest ih =>
    obtain ⟨k, r⟩ := p
    by_cases hk : k = roomId
    · subst hk
      simp [alGet] at hr
      subst hr
      simp [sweepRooms, hc, alGet]
    · simp [alGet, hk] at hr
      by_cases hrc : r.closed <;> simp [sweepRooms, hrc, alGet, hk, ih _ hr]

/-- C4 counterexample: board "b" is dirty (in-memory snapshot 7, stored
snapshot 3) and the tick's upsert fails.  The claim says the dirty flag
must remain true so the next tick retries; on the code the sweeper
clears `needsPersist` BEFORE firing `saveSnapshot`, whose failure is
swallowed, so after the tick the flag is false and the store still holds
the stale snapshot 3. -/
theorem C4_counterexample :
    alGet "b" (sweepTick (fun _ => true)
        ⟨[("b", ⟨"b", 0, false, true, 7⟩)], [("b", 3)], 1⟩).rooms =
      some ⟨"b", 0, false, false, 7⟩ ∧
    (sweepTick (fun _ => true)
        ⟨[("b", ⟨"b", 0, false, true, 7⟩)], [("b", 3)], 1⟩).store = [("b", 3)] := by
  constructor <;> rfl

/-- C4 amended: on every tick whose upserts fail, each dirty non-closed
record has its `needsPersist` flag cleared anyway (the flag is cleared
before the write is attempted and the write failure is swallowed), and
the durable store is left unchanged — so the next tick does NOT retry
the flush. -/
theorem C4_dirty_cleared_despite_failure (wf : String → Bool) (roomId : String)
    (rec₁ : RoomState) (s : ServerState)
    (hw : ∀ k, wf k = true)
    (hr : alGet roomId s.rooms = some rec₁)
    (_hd : rec₁.needsPersist = true) (hc : rec₁.closed = false) :
    (sweepTick wf s).store = s.store ∧
    alGet roomId (sweepTick wf s).rooms = some { rec₁ with needsPersist := false } := by
  constructor
  · simp [sweepTick, sweepRooms_store_unchanged wf s.rooms s.store hw]
  · simp [sweepTick, sweepRooms_record_cleared wf roomId rec₁ s.rooms s.store hr hc]

/-- C4 amended witness: the concrete dirty record of the counterexample
state ends the failing tick clean, with the store untouched. -/
theorem C4_dirty_cleared_despite_failure_witness :
    (sweepTick (fun _ => true)
        ⟨[("b", ⟨"b", 0, false, true, 7⟩)], [("b", 3)], 1⟩).store = [("b", 3)] ∧
    alGet "b" (sweepTick (fun _ => true)
        ⟨[("b", ⟨"b", 0, false, true, 7⟩)], [("b", 3)], 1⟩).rooms =
      some { id := "b", sid := 0, closed := false, needsPersist := false, snap := 7 } :=
  C4_dirty_cleared_despite_failure (fun _ => true) "b" ⟨"b", 0, false, true, 7⟩
    ⟨[("b", ⟨"b", 0, false, true, 7⟩)], [("b", 3)], 1⟩
    (fun _ => rfl) rfl rfl rfl

/-- C5: evaluation at the failing input.  Board "b" has been deleted from
the catalog (no board row and no folder row named "b"); the last
participant leaves with the record dirty (in-memory snapshot 9), the
store holding the old snapshot 3.  The claim (and the code's own comment
and log line) say the durable snapshot must be DELETED; the code instead
takes the `checkFolderExists(roomId) === false` branch and UPSERTS the
dirty snapshot, leaving a row for "b" with snapshot 9. -/
theorem C5_uncatalogued_board_resurrected :
    checkBoardExists "b" ⟨[], []⟩ = false ∧
    checkFolderExists "b" ⟨[], []⟩ = false ∧
    retentionRun ⟨[], []⟩ false false "b" ⟨"b", 0, false, true, 9⟩
        ⟨[("b", ⟨"b", 0, false, true, 9⟩)], [("b", 3)], 1⟩ =
      ⟨[("b", 9)], [], true⟩ ∧
    alGet "b" (retentionRun ⟨[], []⟩ false false "b" ⟨"b", 0, false, true, 9⟩
        ⟨[("b", ⟨"b", 0, false, true, 9⟩)], [("b", 3)], 1⟩).store = some 9 := by
  refine ⟨rfl, rfl, rfl, rfl⟩

/-- C6: once no live record exists for `roomId` (its record was removed,
or is present but closed), the next `makeOrLoadRoom` performs exactly one
fresh durable read and returns a newly constructed non-closed session
whose identity `s.nextSid` differs from any previously published
instance — in particular it never returns the closed instance. -/
theorem C6_reconnection_fresh (roomId : String) (s : ServerState)
    (h : ∀ r, alGet roomId s.rooms = some r → r.closed = true)
    (hw : ∀ p ∈ s.rooms, (Prod.snd p).sid < s.nextSid) :
    (makeOrLoadRoom ⟨roomId, false, false⟩ s).2.1 =
      AcquireResult.session s.nextSid false ∧
    (makeOrLoadRoom ⟨roomId, false, false⟩ s).2.2 = 1 ∧
    ∀ r, alGet roomId s.rooms = some r → s.nextSid ≠ r.sid := by
  have hslot := slotBody_cold (q := ⟨roomId, false, false⟩) (s := s) h rfl
  have hget := alGet_alSet_self roomId
    { id := roomId, sid := s.nextSid, closed := false, needsPersist := false,
      snap := (readSnapshotIfExists roomId s.store false).getD 0 } s.rooms
  have hres := resumeAfterSlot_some (s :=
    { rooms := alSet roomId
        { id := roomId, sid := s.nextSid, closed := false, needsPersist := false,
          snap := (readSnapshotIfExists roomId s.store false).getD 0 } s.rooms,
      store := s.store, nextSid := s.nextSid + 1 }) hget
  refine ⟨?_, ?_, ?_⟩
  · simp [makeOrLoadRoom, hslot, hres]
  · simp [makeOrLoadRoom, hslot]
  · intro r hr
    have := hw (roomId, r) (alGet_some_mem hr)
    simp only [Prod.snd] at this
    omega

/-- C6 witness: board "b" holds a closed session of identity 0; the next
call reads the store once and returns the fresh non-closed session 1. -/
theorem C6_reconnection_fresh_witness :
    (makeOrLoadRoom ⟨"b", false, false⟩
        ⟨[("b", ⟨"b", 0, true, false, 7⟩)], [("b", 5)], 1⟩).2.1 =
      AcquireResult.session 1 false ∧
    (makeOrLoadRoom ⟨"b", false, false⟩
        ⟨[("b", ⟨"b", 0, true, false, 7⟩)], [("b", 5)], 1⟩).2.2 = 1 ∧
    ∀ r, alGet "b" [("b", (⟨"b", 0, true, false, 7⟩ : RoomState))] = some r →
      (1 : Nat) ≠ r.sid :=
  C6_reconnection_fresh "b" ⟨[("b", ⟨"b", 0, true, false, 7⟩)], [("b", 5)], 1⟩
    (fun r hr => by cases Option.some.inj hr; rfl)
    (fun p hp => by rw [List.mem_singleton] at hp; subst hp; decide)

/-- The interleaving the code permits for C7: a retention IIFE for
`roomId` is in flight — it has been entered and is parked at one of its
suspension points (the `await` of the catalog check or of the store
update), all of which PRECEDE the synchronous `room.close();
rooms.delete(roomState.id)` tail.  A full `makeOrLoadRoom` call for the
same id runs at that point; then the retention resumes and finishes
(the catalog check is pure, so re-evaluating it at resume time is
equivalent). Result: (the acquire caller's result, the retention
outcome). -/
def traceAcquireDuringRetention (cat : Catalog) (roomId : String)
    (rec₁ : RoomState) (s : ServerState) : AcquireResult × RetentionOutcome :=
  let (s₁, errored, _) := slotBody ⟨roomId, false, false⟩ s
  let res := resumeAfterSlot roomId errored s₁
  (res, retentionRun cat false false roomId rec₁ s₁)

/-- The schedule the claim mandates: the retention run's close and
registry removal occupy a slot of the creation queue, so the
`makeOrLoadRoom` call runs only after the retention completed. -/
def traceAcquireAfterRetention (cat : Catalog) (roomId : String)
    (rec₁ : RoomState) (s : ServerState) : AcquireResult × RetentionOutcome :=
  let out := retentionRun cat false false roomId rec₁ s
  let s₁ : ServerState := ⟨out.rooms, out.store, s.nextSid⟩
  let (s₂, errored, _) := slotBody ⟨roomId, false, false⟩ s₁
  (resumeAfterSlot roomId errored s₂, ⟨s₂.store, s₂.rooms, out.sessionClosed⟩)

/-- C7 counterexample: board "b" (not in the catalog) holds the live
non-closed session 0 and its last participant just left, so a retention
run is in flight.  In the schedule the code permits — the acquire slot
runs at a retention suspension point — the acquire COMPLETES mid-run,
returning session 0, and the retention's final step then empties the
registry, leaving the caller holding a session with no record.  Under
the claimed serialization through the creation queue the same call would
instead return the fresh session 1 with its record published.  The two
outcomes differ, so close-and-removal is NOT serialized through the
global creation queue. -/
theorem C7_counterexample :
    (traceAcquireDuringRetention ⟨[], []⟩ "b" ⟨"b", 0, false, false, 5⟩
        ⟨[("b", ⟨"b", 0, false, false, 5⟩)], [("b", 5)], 1⟩).1 =
      AcquireResult.session 0 false ∧
    (traceAcquireDuringRetention ⟨[], []⟩ "b" ⟨"b", 0, false, false, 5⟩
        ⟨[("b", ⟨"b", 0, false, false, 5⟩)], [("b", 5)], 1⟩).2.rooms = [] ∧
    (traceAcquireAfterRetention ⟨[], []⟩ "b" ⟨"b", 0, false, false, 5⟩
        ⟨[("b", ⟨"b", 0, false, false, 5⟩)], [("b", 5)], 1⟩).1 =
      AcquireResult.session 1 false ∧
    (traceAcquireDuringRetention ⟨[], []⟩ "b" ⟨"b", 0, false, false, 5⟩
        ⟨[("b", ⟨"b", 0, false, false, 5⟩)], [("b", 5)], 1⟩).1 ≠
    (traceAcquireAfterRetention ⟨[], []⟩ "b" ⟨"b", 0, false, false, 5⟩
        ⟨[("b", ⟨"b", 0, false, false, 5⟩)], [("b", 5)], 1⟩).1 := by
  refine ⟨rfl, rfl, rfl, by decide⟩

/-- Two retention runs for the same `roomId` can overlap: the last
participant leaves (run A enters the IIFE and parks at its catalog-check
`await`), a participant reconnects — a warm `makeOrLoadRoom` call on the
still-published, still-open record — and leaves again, so the same
session fires `onSessionRemoved` with zero remaining a second time
(run B enters and parks at its own catalog-check `await`; both runs
captured the same `roomState` closure variable, here `rec₁`).  Run A
then resumes and finishes, including its synchronous
`room.close(); rooms.delete(roomState.id)` tail; a fresh
`makeOrLoadRoom` call runs its full slot next; finally run B resumes
and finishes (the catalog check is pure, so evaluating it at resume
time is equivalent).  Result: (the warm acquire's result, the late
acquire's result, run B's outcome). -/
def traceOverlappingRetentions (cat : Catalog) (roomId : String)
    (rec₁ : RoomState) (s : ServerState) :
    AcquireResult × AcquireResult × RetentionOutcome :=
  let (s₁, e₁, _) := slotBody ⟨roomId, false, false⟩ s
  let res₁ := resumeAfterSlot roomId e₁ s₁
  let outA := retentionRun cat false false roomId rec₁ s₁
  let s₂ : ServerState := ⟨outA.rooms, outA.store, s₁.nextSid⟩
  let (s₃, e₂, _) := slotBody ⟨roomId, false, false⟩ s₂
  let res₂ := resumeAfterSlot roomId e₂ s₃
  (res₁, res₂, retentionRun cat false false roomId rec₁ s₃)

/-- C7 amended: the retention run's close and registry removal are NOT
routed through the creation queue — a `makeOrLoadRoom` call for the same
id can run to completion while a retention run for that id is in flight,
and with two overlapping runs an acquire can even observe the id as
absent and publish a new record mid-run.  Concretely, on the
overlapping-runs schedule for the uncatalogued board "b": the
reconnecting participant is handed session 0 (which run A is about to
close); after run A's tail the registry has no entry for "b", so the
late acquire — running while run B is still in flight — observes the id
as absent, performs a fresh load and publishes and returns the new
session 1; run B's final step then deletes that freshly published
record, leaving the registry empty while the caller still holds
session 1. -/
theorem C7_overlapping_runs_publish_mid_flight :
    (traceOverlappingRetentions ⟨[], []⟩ "b" ⟨"b", 0, false, false, 5⟩
        ⟨[("b", ⟨"b", 0, false, false, 5⟩)], [("b", 5)], 1⟩).1 =
      AcquireResult.session 0 false ∧
    alGet "b" (retentionRun ⟨[], []⟩ false false "b" ⟨"b", 0, false, false, 5⟩
        ⟨[("b", ⟨"b", 0, false, false, 5⟩)], [("b", 5)], 1⟩).rooms = none ∧
    (traceOverlappingRetentions ⟨[], []⟩ "b" ⟨"b", 0, false, false, 5⟩
        ⟨[("b", ⟨"b", 0, false, false, 5⟩)], [("b", 5)], 1⟩).2.1 =
      AcquireResult.session 1 false ∧
    (traceOverlappingRetentions ⟨[], []⟩ "b" ⟨"b", 0, false, false, 5⟩
        ⟨[("b", ⟨"b", 0, false, false, 5⟩)], [("b", 5)], 1⟩).2.2.rooms = [] := by
  refine ⟨rfl, rfl, rfl, rfl⟩

/-- C8 counterexample: a folder named "b" exists (so the code takes the
snapshot-deletion branch) and the `roomRepo.delete` call throws.  The
claim says the failure is non-fatal — the session is still closed and
the record still removed.  On the code the rejection aborts the rest of
the IIFE: `room.close()` is never reached (`sessionClosed = false`) and
the record is still in the registry. -/
theorem C8_counterexample :
    (retentionRun ⟨["b"], []⟩ true false "b" ⟨"b", 0, false, false, 5⟩
        ⟨[("b", ⟨"b", 0, false, false, 5⟩)], [("b", 5)], 1⟩).sessionClosed = false ∧
    alGet "b" (retentionRun ⟨["b"], []⟩ true false "b" ⟨"b", 0, false, false, 5⟩
        ⟨[("b", ⟨"b", 0, false, false, 5⟩)], [("b", 5)], 1⟩).rooms =
      some ⟨"b", 0, false, false, 5⟩ := by
  exact ⟨rfl, rfl⟩

/-- C8 amended: when the retention run's snapshot deletion throws, no
participant is handed the error (the IIFE's promise is never awaited),
but the failure is NOT contained to the store: it aborts the remainder
of the run, so the session is left open, the record stays in the
registry, and the store is unchanged. -/
theorem C8_delete_failure_aborts_run (cat : Catalog) (roomId : String)
    (rec₁ : RoomState) (s : ServerState) (wf : Bool)
    (hfe : checkFolderExists roomId cat = true) :
    retentionRun cat true wf roomId rec₁ s = ⟨s.store, s.rooms, false⟩ := by
  simp [retentionRun, hfe]

/-- C8 amended witness: the concrete failing deletion of the
counterexample leaves store, registry and session untouched. -/
theorem C8_delete_failure_aborts_run_witness :
    retentionRun ⟨["b"], []⟩ true false "b" ⟨"b", 0, false, false, 5⟩
        ⟨[("b", ⟨"b", 0, false, false, 5⟩)], [("b", 5)], 1⟩ =
      ⟨[("b", 5)], [("b", ⟨"b", 0, false, false, 5⟩)], false⟩ :=
  C8_delete_failure_aborts_run ⟨["b"], []⟩ "b" ⟨"b", 0, false, false, 5⟩
    ⟨[("b", ⟨"b", 0, false, false, 5⟩)], [("b", 5)], 1⟩ false rfl

/-- C9: the caller's resumption `return rooms.get(roomId)!.room` after an
error-free queue slot dereferences the registry entry unconditionally:
if the record was removed before the caller resumed, it fails with a
runtime type error — which is neither a returned session nor the
captured-and-rethrown `loadError`; a session (with exactly the stored
identity and closed flag) is returned only under the precondition that
the entry is still present. -/
theorem C9_unconditional_dereference (roomId : String) (s : ServerState) :
    (alGet roomId s.rooms = none →
      resumeAfterSlot roomId false s = AcquireResult.typeError) ∧
    (∀ r, alGet roomId s.rooms = some r →
      resumeAfterSlot roomId false s = AcquireResult.session r.sid r.closed) ∧
    (∀ sid c, AcquireResult.typeError ≠ AcquireResult.session sid c) ∧
    AcquireResult.typeError ≠ AcquireResult.loadError := by
  refine ⟨fun h => by simp [resumeAfterSlot, h],
    fun r h => resumeAfterSlot_some h,
    fun sid c h => AcquireResult.noConfusion h,
    fun h => AcquireResult.noConfusion h⟩

/-- C9 witness: with the registry emptied between the slot and the
resumption, the call for "b" hits the runtime type error. -/
theorem C9_unconditional_dereference_witness :
    resumeAfterSlot "b" false ⟨[], [("b", 5)], 1⟩ = AcquireResult.typeError :=
  (C9_unconditional_dereference "b" ⟨[], [("b", 5)], 1⟩).1 rfl

/-- C10: a participant-disconnect callback with a positive remaining
count changes nothing: registry, dirty flags and durable store are
untouched and the session is not closed; only the zero-remaining case
triggers the retention run. -/
theorem C10_frame_when_participants_remain (cat : Catalog) (df wf : Bool)
    (roomId : String) (rec₁ : RoomState) (n : Nat) (s : ServerState)
    (h : 0 < n) :
    onSessionRemoved cat df wf roomId rec₁ n s = ⟨s.store, s.rooms, false⟩ := by
  have hn : n ≠ 0 := Nat.pos_iff_ne_zero.mp h
  simp [onSessionRemoved, hn]

/-- C10 witness: one participant remains; the dirty record, registry and
store of a concrete state are untouched and nothing is closed. -/
theorem C10_frame_when_participants_remain_witness :
    onSessionRemoved ⟨[], []⟩ false false "b" ⟨"b", 0, false, true, 9⟩ 1
        ⟨[("b", ⟨"b", 0, false, true, 9⟩)], [("b", 3)], 1⟩ =
      ⟨[("b", 3)], [("b", ⟨"b", 0, false, true, 9⟩)], false⟩ :=
  C10_frame_when_participants_remain ⟨[], []⟩ false false "b"
    ⟨"b", 0, false, true, 9⟩ 1 ⟨[("b", ⟨"b", 0, false, true, 9⟩)], [("b", 3)], 1⟩
    (by decide)
